import Mathlib

/-!
Verification of the bopmatic CLI core subsystems (image pull progress,
build-container upgrade flow, CLI self-upgrade with backup/rollback, and
top-level subcommand dispatch), shallowly embedded from the Go sources
(`src/auth.go`, `src/main.go`, `src/unnamed/part_000`).

Machine integers (`uint64`) are modelled as `Nat` with explicit `% 2 ^ 64`
at the one multiplication where overflow matters.  External effects
(HTTP, the container engine, `os.Rename`, user answers) are modelled as
oracle fields of explicit world structures; each function returns the
trace of messages it prints together with its exit outcome and, where
relevant, the updated file-system state.
-/

namespace Bopmatic

/-- Exit outcome of a CLI operation: normal return, or `os.Exit(1)`. -/
inductive Outcome where
| ok : Outcome
| exit1 : Outcome
deriving DecidableEq, Repr

/-! ## Image pull progress (`pullBopmaticImage`, src/auth.go lines 384-440)

`cli.ImagePull` returns newline-separated JSON documents.  The Go code
unmarshals each scanned line into a `DockerStatus`; a line whose
unmarshal fails is skipped (`continue`).  We model each scanned line by
the result of that unmarshal: `none` for a malformed line, `some d` for a
line carrying status document `d`.  -/

/-- `progressDetail` object of one docker status line: byte counts are
Go `uint64` values (src/auth.go lines 402-405). -/
structure ProgressDetail where
  current : Nat
  total : Nat
deriving DecidableEq, Repr

/-- One parsed docker status line (src/auth.go lines 406-410). -/
structure DockerStatus where
  status : String
  id : String
  detail : ProgressDetail
deriving DecidableEq, Repr

/-- The progress percentage computed in the loop body (src/auth.go lines
420-426): `progressPct = 100; if Total != 0 { progressPct =
(Current*100)/Total }`, in wrapping `uint64` arithmetic, hence the
explicit `% 2 ^ 64` on the product. -/
def progressPct (d : ProgressDetail) : Nat :=
  if d.total ≠ 0 then (d.current * 100) % 2 ^ 64 / d.total else 100

/-- A line printed by `pullBopmaticImage`. -/
inductive PullMsg where
| progress (status : String) (id : String) (pct : Nat) : PullMsg
| clientFailed : PullMsg
| pullStartFailed : PullMsg
| scanFailed : PullMsg
| pullSucceeded : PullMsg
deriving DecidableEq, Repr

/-- Oracle for one run of `pullBopmaticImage`: whether building the docker
client fails, whether `cli.ImagePull` itself fails, the scanned lines
delivered before the stream ends (each already classified by whether
`json.Unmarshal` succeeds on it), and whether `progressScanner.Err()`
reports the stream ended with an error. -/
structure PullStream where
  clientFails : Bool
  imagePullFails : Bool
  lines : List (Option DockerStatus)
  scanErr : Bool

/-- The scan loop of `pullBopmaticImage` (src/auth.go lines 413-429): one
iteration per scanned line; a line that fails to unmarshal is skipped via
`continue`; a parsed line prints its status, id and percentage. -/
def pullLoop : List (Option DockerStatus) → List PullMsg
| [] => []
| none :: rest => pullLoop rest
| some d :: rest =>
    PullMsg.progress d.status d.id (progressPct d.detail) :: pullLoop rest

/-- `pullBopmaticImage` (src/auth.go lines 384-440): build the docker
client (exit 1 on failure), start the pull (exit 1 on failure), run the
scan loop over every delivered line, then check `progressScanner.Err()`:
a stream error exits 1 after all progress lines were already printed,
otherwise the success message is printed. -/
def pullBopmaticImage (s : PullStream) : List PullMsg × Outcome :=
  if s.clientFails then ([PullMsg.clientFailed], Outcome.exit1)
  else if s.imagePullFails then ([PullMsg.pullStartFailed], Outcome.exit1)
  else
    let msgs := pullLoop s.lines
    if s.scanErr then (msgs ++ [PullMsg.scanFailed], Outcome.exit1)
    else (msgs ++ [PullMsg.pullSucceeded], Outcome.ok)

/-- Dropping the malformed lines from a scan does not change the printed
progress lines: the loop skips exactly the `none` entries. -/
theorem pullLoop_filter_isSome (lines : List (Option DockerStatus)) :
    pullLoop (lines.filter (fun o => o.isSome)) = pullLoop lines := by
  induction lines with
  | nil => rfl
  | cons o rest ih =>
    cases o with
    | none => simpa [pullLoop, List.filter] using ih
    | some d => simpa [pullLoop, List.filter] using ih

/-- The loop prints exactly one progress line per well-formed scanned
line, in order. -/
theorem pullLoop_eq_map_filterMap (lines : List (Option DockerStatus)) :
    pullLoop lines = (lines.filterMap id).map
      (fun d => PullMsg.progress d.status d.id (progressPct d.detail)) := by
  induction lines with
  | nil => rfl
  | cons o rest ih =>
    cases o with
    | none => simpa [pullLoop, List.filterMap] using ih
    | some d => simpa [pullLoop, List.filterMap] using ih

/-- C5: every line that fails to unmarshal is skipped and processing
continues with the next line (removing the malformed lines changes
neither the printed output nor the outcome of `pullBopmaticImage`, so a
malformed line never turns the pull into a failure), and every
well-formed line still produces its progress event, in order. -/
theorem pull_skips_malformed_lines (s : PullStream) :
    pullBopmaticImage s = pullBopmaticImage
      ⟨s.clientFails, s.imagePullFails,
        s.lines.filter (fun o => o.isSome), s.scanErr⟩ ∧
    pullLoop s.lines = (s.lines.filterMap id).map
      (fun d => PullMsg.progress d.status d.id (progressPct d.detail)) := by
  constructor
  · simp only [pullBopmaticImage, pullLoop_filter_isSome]
  · exact pullLoop_eq_map_filterMap s.lines

/-- C8: once the pull has started, a stream that ends with an error
(`progressScanner.Err() != nil`) is reported as a pull failure (exit 1)
after every progress line produced before the error was already printed,
and a stream that closes without error is reported as a successful
pull. -/
theorem pull_stream_error_surfaced (s : PullStream)
    (hclient : s.clientFails = false) (hpull : s.imagePullFails = false) :
    (s.scanErr = true →
      pullBopmaticImage s =
        (pullLoop s.lines ++ [PullMsg.scanFailed], Outcome.exit1)) ∧
    (s.scanErr = false →
      pullBopmaticImage s =
        (pullLoop s.lines ++ [PullMsg.pullSucceeded], Outcome.ok)) := by
  constructor
  · intro hscan
    simp [pullBopmaticImage, hclient, hpull, hscan]
  · intro hscan
    simp [pullBopmaticImage, hclient, hpull, hscan]

/-- Witness for `pull_stream_error_surfaced` at a concrete stream: one
well-formed line followed by a stream error. -/
theorem pull_stream_error_surfaced_witness :
    pullBopmaticImage ⟨false, false,
        [some ⟨"Downloading", "ab12", ⟨5, 10⟩⟩], true⟩ =
      (pullLoop [some ⟨"Downloading", "ab12", ⟨5, 10⟩⟩] ++
        [PullMsg.scanFailed], Outcome.exit1) :=
  (pull_stream_error_surfaced
    ⟨false, false, [some ⟨"Downloading", "ab12", ⟨5, 10⟩⟩], true⟩
    rfl rfl).1 rfl

/-- C3 counterexample: a parsed status line with `current = 2`,
`total = 1` (bytesDone greater than bytesTotal) yields the derived
percentage 200, which is not within [0, 100]. -/
theorem progressPct_can_exceed_100 :
    pullLoop [some ⟨"Downloading", "ab12", ⟨2, 1⟩⟩] =
      [PullMsg.progress "Downloading" "ab12" 200] ∧ ¬ (200 ≤ 100) := by
  constructor
  · rfl
  · decide

/-- C3 amended: the derived percentage lies in [0, 100] for every parsed
line whose `bytesDone` does not exceed `bytesTotal` (including values
large enough that `bytesDone * 100` wraps modulo `2 ^ 64`) and for every
line with `bytesTotal = 0`, which always yields exactly 100; when
`bytesDone > bytesTotal` the percentage can exceed 100. -/
theorem progressPct_le_100_of_le (d : DockerStatus)
    (h : d.detail.current ≤ d.detail.total ∨ d.detail.total = 0) :
    progressPct d.detail ≤ 100 ∧
      (d.detail.total = 0 → progressPct d.detail = 100) := by
  have hpow : (2 : ℕ) ^ 64 = 18446744073709551616 := by norm_num
  constructor
  · rcases h with h | h
    · by_cases ht : d.detail.total = 0
      · simp [progressPct, ht]
      · have htpos : 0 < d.detail.total := Nat.pos_of_ne_zero ht
        have key : d.detail.current * 100 % 2 ^ 64 < 101 * d.detail.total := by
          have h1 : d.detail.current * 100 ≤ d.detail.total * 100 :=
            Nat.mul_le_mul_right 100 h
          rcases Nat.lt_or_ge (d.detail.current * 100) (2 ^ 64) with hlt | hge
          · rw [Nat.mod_eq_of_lt hlt]
            omega
          · have h2 : d.detail.current * 100 % 2 ^ 64 < 2 ^ 64 :=
              Nat.mod_lt _ (by norm_num)
            rw [hpow] at h2 hge
            omega
        have hdiv : d.detail.current * 100 % 2 ^ 64 / d.detail.total < 101 :=
          (Nat.div_lt_iff_lt_mul htpos).mpr key
        have : progressPct d.detail =
            d.detail.current * 100 % 2 ^ 64 / d.detail.total := by
          simp [progressPct, ht]
        omega
    · simp [progressPct, h]
  · intro ht
    simp [progressPct, ht]

/-- Witness for `progressPct_le_100_of_le` at a concrete parsed line with
`bytesDone = 3`, `bytesTotal = 7`. -/
theorem progressPct_le_100_of_le_witness :
    progressPct (ProgressDetail.mk 3 7) ≤ 100 ∧
      ((7 : Nat) = 0 → progressPct (ProgressDetail.mk 3 7) = 100) :=
  progressPct_le_100_of_le ⟨"Downloading", "ab12", ⟨3, 7⟩⟩
    (Or.inl (by decide))

/-- C4 counterexample: for a parsed line with
`bytesDone = bytesTotal = 2 ^ 63`, the displayed percentage is 0 (the
64-bit product `bytesDone * 100` wraps to 0), while the exact value of
`bytesDone * 100 / bytesTotal` is 100. -/
theorem progressPct_ne_exact_formula :
    pullLoop [some ⟨"Extracting", "cd34",
        ⟨9223372036854775808, 9223372036854775808⟩⟩] =
      [PullMsg.progress "Extracting" "cd34" 0] ∧
    9223372036854775808 * 100 / 9223372036854775808 = 100 ∧
    (0 : Nat) ≠ 100 := by
  refine ⟨rfl, by norm_num, by decide⟩

/-- C4 amended: the displayed percentage equals
`bytesDone * 100 % 2 ^ 64 / bytesTotal` (the 64-bit wrapping product)
when `bytesTotal` is nonzero, and exactly 100 when `bytesTotal` is 0; it
coincides with the exact `bytesDone * 100 / bytesTotal` whenever the
product does not wrap (`bytesDone * 100 < 2 ^ 64`). -/
theorem progressPct_formula (d : DockerStatus) :
    (d.detail.total = 0 → progressPct d.detail = 100) ∧
    (d.detail.total ≠ 0 →
      progressPct d.detail =
        d.detail.current * 100 % 2 ^ 64 / d.detail.total) ∧
    (d.detail.total ≠ 0 → d.detail.current * 100 < 2 ^ 64 →
      progressPct d.detail = d.detail.current * 100 / d.detail.total) := by
  refine ⟨fun ht => by simp [progressPct, ht],
    fun ht => by simp [progressPct, ht],
    fun ht hlt => by
      unfold progressPct
      rw [if_pos ht, Nat.mod_eq_of_lt hlt]⟩

/-- Witness for `progressPct_formula` at a concrete parsed line with
`bytesDone = 123`, `bytesTotal = 1000`. -/
theorem progressPct_formula_witness :
    progressPct (ProgressDetail.mk 123 1000) = 123 * 100 / 1000 :=
  (progressPct_formula ⟨"Downloading", "ab12", ⟨123, 1000⟩⟩).2.2
    (by decide) (by norm_num)

/-! ## Filesystem model and CLI self-upgrade
(`upgradeCLIViaGithub`, src/auth.go lines 305-380)

The filesystem is a partial map from paths to file data.  Each external
operation of the Go function (HTTP GET, `os.CreateTemp`, `Write`,
`Chmod`, `Close`, `os.Executable`, `filepath.EvalSymlinks`, `os.Rename`,
`os.Remove`) is driven by an oracle field of `GithubWorld` saying
whether it fails; a failing operation leaves the filesystem unchanged. -/

/-- Contents and permission mode of one file. -/
structure FileData where
  bytes : List Nat
  mode : Nat
deriving DecidableEq, Repr

/-- A filesystem: paths to file data, `none` where no file exists. -/
def Fs : Type := String → Option FileData

/-- Point update of a filesystem. -/
def fsSet (fs : Fs) (p : String) (v : Option FileData) : Fs :=
  fun q => if q = p then v else fs q

/-- Successful `os.Rename src dst`: `dst` now holds what `src` held, and
`src` no longer exists. -/
def fsRename (fs : Fs) (src dst : String) : Fs :=
  fsSet (fsSet fs dst (fs src)) src none

/-- Oracle for one run of `upgradeCLIViaGithub`: which external
operations fail, the temp-file name `os.CreateTemp` picks, the bytes the
download delivers, and the resolved path of the running executable. -/
structure GithubWorld where
  getFails : Bool
  tmpName : String
  createTempFails : Bool
  downloadBytes : List Nat
  readAllFails : Bool
  writeFails : Bool
  chmodFails : Bool
  closeFails : Bool
  executableFails : Bool
  evalSymlinksFails : Bool
  exePath : String
  rename1Fails : Bool
  rename2Fails : Bool
  rollbackRenameFails : Bool
  removeBakFails : Bool

/-- A message `upgradeCLIViaGithub` prints. -/
inductive GhMsg where
| downloadFailed : GhMsg
| createTempFailed : GhMsg
| determinePathFailed : GhMsg
| couldNotReplace : GhMsg
| upgradeComplete : GhMsg
deriving DecidableEq, Repr

/-- Result of a run of `upgradeCLIViaGithub`: printed messages, final
filesystem, exit outcome. -/
structure GhResult where
  trace : List GhMsg
  fs : Fs
  outcome : Outcome

/-- `upgradeCLIViaGithub` (src/auth.go lines 305-380), step by step:
HTTP GET (exit 1 on failure); `os.CreateTemp` (on failure the error is
printed but the function does NOT exit — the nil temp file makes the
later `Write` fail); `ReadAll`, `Write`, `Chmod`, `Close` (each exits 1
on failure); `os.Executable` and `filepath.EvalSymlinks` (each exits 1
on failure); rename the executable to `<path>.bak` (exit 1 on failure,
nothing moved); rename the temp file onto the executable path — on
failure the backup is renamed back (that rename's own error is
discarded via `_ =`) and the function exits 1; on success the backup is
removed (error discarded) and the completion message printed. -/
def upgradeCLIViaGithub (w : GithubWorld) (fs : Fs) : GhResult :=
  if w.getFails then ⟨[GhMsg.downloadFailed], fs, Outcome.exit1⟩
  else
    let created := !w.createTempFails
    let msgs0 := if created then [] else [GhMsg.createTempFailed]
    let fs1 := if created then fsSet fs w.tmpName (some ⟨[], 0o600⟩) else fs
    if w.readAllFails then
      ⟨msgs0 ++ [GhMsg.downloadFailed], fs1, Outcome.exit1⟩
    else if w.writeFails || !created then
      ⟨msgs0 ++ [GhMsg.downloadFailed], fs1, Outcome.exit1⟩
    else
      let fs2 := fsSet fs1 w.tmpName (some ⟨w.downloadBytes, 0o600⟩)
      if w.chmodFails then
        ⟨msgs0 ++ [GhMsg.downloadFailed], fs2, Outcome.exit1⟩
      else
        let fs3 := fsSet fs2 w.tmpName (some ⟨w.downloadBytes, 0o755⟩)
        if w.closeFails then
          ⟨msgs0 ++ [GhMsg.downloadFailed], fs3, Outcome.exit1⟩
        else if w.executableFails then
          ⟨msgs0 ++ [GhMsg.determinePathFailed], fs3, Outcome.exit1⟩
        else if w.evalSymlinksFails then
          ⟨msgs0 ++ [GhMsg.determinePathFailed], fs3, Outcome.exit1⟩
        else
          let bakPath := w.exePath ++ ".bak"
          if w.rename1Fails then
            ⟨msgs0 ++ [GhMsg.couldNotReplace], fs3, Outcome.exit1⟩
          else
            let fs4 := fsRename fs3 w.exePath bakPath
            if w.rename2Fails then
              let fs5 := if w.rollbackRenameFails then fs4
                else fsRename fs4 bakPath w.exePath
              ⟨msgs0 ++ [GhMsg.couldNotReplace], fs5, Outcome.exit1⟩
            else
              let fs5 := fsRename fs4 w.tmpName w.exePath
              let fs6 := if w.removeBakFails then fs5
                else fsSet fs5 bakPath none
              ⟨msgs0 ++ [GhMsg.upgradeComplete], fs6, Outcome.ok⟩

theorem fsSet_same (fs : Fs) (p : String) (v : Option FileData) :
    fsSet fs p v p = v := by
  simp [fsSet]

theorem fsSet_other (fs : Fs) (p q : String) (v : Option FileData)
    (h : q ≠ p) : fsSet fs p v q = fs q := by
  simp [fsSet, h]

/-- Appending the `.bak` suffix always yields a different path. -/
theorem bak_ne_self (s : String) : s ++ ".bak" ≠ s := by
  intro h
  have hlen : (s ++ ".bak").length = s.length := congrArg String.length h
  rw [String.length_append] at hlen
  have h4 : ".bak".length = 4 := rfl
  omega

/-- C1: when every step up to and including the backup rename succeeds
but the rename of the staged binary onto the executable path fails, and
the rollback rename succeeds, the run exits 1 printing only the replace
failure (never the completion message), and the executable path holds
exactly the original binary again. -/
theorem replace_failure_rolls_back (w : GithubWorld) (fs : Fs)
    (hget : w.getFails = false) (hct : w.createTempFails = false)
    (hra : w.readAllFails = false) (hwr : w.writeFails = false)
    (hch : w.chmodFails = false) (hcl : w.closeFails = false)
    (hex : w.executableFails = false) (hev : w.evalSymlinksFails = false)
    (hr1 : w.rename1Fails = false) (hr2 : w.rename2Fails = true)
    (hrb : w.rollbackRenameFails = false)
    (htmp : w.tmpName ≠ w.exePath) :
    (upgradeCLIViaGithub w fs).outcome = Outcome.exit1 ∧
    (upgradeCLIViaGithub w fs).trace = [GhMsg.couldNotReplace] ∧
    (upgradeCLIViaGithub w fs).fs w.exePath = fs w.exePath := by
  have hexe : w.exePath ≠ w.tmpName := Ne.symm htmp
  have hbak : w.exePath ++ ".bak" ≠ w.exePath := bak_ne_self w.exePath
  have hbne : w.exePath ≠ w.exePath ++ ".bak" := Ne.symm hbak
  refine ⟨?_, ?_, ?_⟩ <;>
    simp [upgradeCLIViaGithub, fsRename, fsSet, hget, hct, hra, hwr, hch,
      hcl, hex, hev, hr1, hr2, hrb, hexe, hbak, hbne]

/-- Witness for `replace_failure_rolls_back` at a concrete world and
filesystem where the final rename fails. -/
theorem replace_failure_rolls_back_witness :
    (upgradeCLIViaGithub
      ⟨false, "/tmp/bopmatic-1", false, [1, 2, 3], false, false, false,
        false, false, false, "/usr/local/bin/bopmatic", false, true,
        false, false⟩
      (fun p => if p = "/usr/local/bin/bopmatic" then
        some ⟨[9], 493⟩ else none)).outcome = Outcome.exit1 ∧
    (upgradeCLIViaGithub
      ⟨false, "/tmp/bopmatic-1", false, [1, 2, 3], false, false, false,
        false, false, false, "/usr/local/bin/bopmatic", false, true,
        false, false⟩
      (fun p => if p = "/usr/local/bin/bopmatic" then
        some ⟨[9], 493⟩ else none)).trace = [GhMsg.couldNotReplace] ∧
    (upgradeCLIViaGithub
      ⟨false, "/tmp/bopmatic-1", false, [1, 2, 3], false, false, false,
        false, false, false, "/usr/local/bin/bopmatic", false, true,
        false, false⟩
      (fun p => if p = "/usr/local/bin/bopmatic" then
        some ⟨[9], 493⟩ else none)).fs "/usr/local/bin/bopmatic" =
      (fun p => if p = "/usr/local/bin/bopmatic" then
        some ⟨[9], 493⟩ else none : Fs) "/usr/local/bin/bopmatic" :=
  replace_failure_rolls_back
    ⟨false, "/tmp/bopmatic-1", false, [1, 2, 3], false, false, false,
      false, false, false, "/usr/local/bin/bopmatic", false, true,
      false, false⟩
    (fun p => if p = "/usr/local/bin/bopmatic" then
      some ⟨[9], 493⟩ else none)
    rfl rfl rfl rfl rfl rfl rfl rfl rfl rfl rfl (by decide)

/-- Concrete world for the C2 counterexample in which the final rename
fails and the rollback rename also fails. -/
def ghWorldRollbackFails : GithubWorld :=
  ⟨false, "/tmp/bopmatic-1", false, [1, 2, 3], false, false, false,
    false, false, false, "/usr/local/bin/bopmatic", false, true,
    true, false⟩

/-- Concrete world identical to `ghWorldRollbackFails` except that the
rollback rename succeeds. -/
def ghWorldRollbackOk : GithubWorld :=
  ⟨false, "/tmp/bopmatic-1", false, [1, 2, 3], false, false, false,
    false, false, false, "/usr/local/bin/bopmatic", false, true,
    false, false⟩

/-- Concrete starting filesystem holding only the original binary. -/
def ghFs0 : Fs :=
  fun p => if p = "/usr/local/bin/bopmatic" then some ⟨[9], 493⟩
    else none

/-- C2 counterexample: with the final rename failing, the run in which
the rollback rename also fails leaves the executable path empty (the
binary is gone — the genuinely unrecoverable state), yet it prints
exactly the same messages and exits with the same status as the run in
which the rollback succeeds: the rollback failure is not detected or
reported as a distinct condition. -/
theorem rollback_failure_reported_same :
    (upgradeCLIViaGithub ghWorldRollbackFails ghFs0).trace =
      (upgradeCLIViaGithub ghWorldRollbackOk ghFs0).trace ∧
    (upgradeCLIViaGithub ghWorldRollbackFails ghFs0).outcome =
      (upgradeCLIViaGithub ghWorldRollbackOk ghFs0).outcome ∧
    (upgradeCLIViaGithub ghWorldRollbackFails ghFs0).fs
      "/usr/local/bin/bopmatic" = none ∧
    (upgradeCLIViaGithub ghWorldRollbackOk ghFs0).fs
      "/usr/local/bin/bopmatic" = some ⟨[9], 493⟩ := by
  refine ⟨rfl, rfl, ?_, ?_⟩ <;> decide

/-- C2 amended: when the final rename fails, the rollback rename is
attempted but its own failure is ignored (`_ = os.Rename(...)`): the
printed messages and the exit status are exactly those of an ordinary
replace failure whether the rollback succeeds or fails; no distinct
unrecoverable condition is ever reported. -/
theorem rollback_failure_ignored (w : GithubWorld) (fs : Fs)
    (hget : w.getFails = false) (hct : w.createTempFails = false)
    (hra : w.readAllFails = false) (hwr : w.writeFails = false)
    (hch : w.chmodFails = false) (hcl : w.closeFails = false)
    (hex : w.executableFails = false) (hev : w.evalSymlinksFails = false)
    (hr1 : w.rename1Fails = false) (hr2 : w.rename2Fails = true) :
    (upgradeCLIViaGithub w fs).trace = [GhMsg.couldNotReplace] ∧
    (upgradeCLIViaGithub w fs).outcome = Outcome.exit1 := by
  constructor <;>
    simp [upgradeCLIViaGithub, hget, hct, hra, hwr, hch, hcl, hex, hev,
      hr1, hr2]

/-- Witness for `rollback_failure_ignored` at a concrete world whose
rollback rename fails. -/
theorem rollback_failure_ignored_witness :
    (upgradeCLIViaGithub
      ⟨false, "/tmp/bopmatic-1", false, [1, 2, 3], false, false, false,
        false, false, false, "/usr/local/bin/bopmatic", false, true,
        true, false⟩ (fun _ => none)).trace = [GhMsg.couldNotReplace] ∧
    (upgradeCLIViaGithub
      ⟨false, "/tmp/bopmatic-1", false, [1, 2, 3], false, false, false,
        false, false, false, "/usr/local/bin/bopmatic", false, true,
        true, false⟩ (fun _ => none)).outcome = Outcome.exit1 :=
  rollback_failure_ignored
    ⟨false, "/tmp/bopmatic-1", false, [1, 2, 3], false, false, false,
      false, false, false, "/usr/local/bin/bopmatic", false, true,
      true, false⟩ (fun _ => none)
    rfl rfl rfl rfl rfl rfl rfl rfl rfl rfl

/-- C6: any failure before the backup rename (HTTP GET error, `ReadAll`
error, temp-file `Write`, `Chmod` or `Close` error), and equally a
failure of the backup rename itself, makes the run exit 1 while the file
at the resolved executable path is exactly what it was before the run
(the temp staging file is the only path ever touched). -/
theorem early_failure_preserves_binary (w : GithubWorld) (fs : Fs)
    (hfail : w.getFails = true ∨ w.readAllFails = true ∨
      w.writeFails = true ∨ w.chmodFails = true ∨ w.closeFails = true ∨
      w.rename1Fails = true)
    (htmp : w.tmpName ≠ w.exePath) :
    (upgradeCLIViaGithub w fs).outcome = Outcome.exit1 ∧
    (upgradeCLIViaGithub w fs).fs w.exePath = fs w.exePath := by
  have hexe : w.exePath ≠ w.tmpName := Ne.symm htmp
  cases hget : w.getFails with
  | true => simp [upgradeCLIViaGithub, hget]
  | false =>
  cases hct : w.createTempFails with
  | true =>
    cases hra : w.readAllFails with
    | true => simp [upgradeCLIViaGithub, hget, hct, hra]
    | false => simp [upgradeCLIViaGithub, hget, hct, hra]
  | false =>
  cases hra : w.readAllFails with
  | true => simp [upgradeCLIViaGithub, fsSet, hget, hct, hra, hexe]
  | false =>
  cases hwr : w.writeFails with
  | true => simp [upgradeCLIViaGithub, fsSet, hget, hct, hra, hwr, hexe]
  | false =>
  cases hch : w.chmodFails with
  | true =>
    simp [upgradeCLIViaGithub, fsSet, hget, hct, hra, hwr, hch, hexe]
  | false =>
  cases hcl : w.closeFails with
  | true =>
    simp [upgradeCLIViaGithub, fsSet, hget, hct, hra, hwr, hch, hcl,
      hexe]
  | false =>
  cases hex : w.executableFails with
  | true =>
    simp [upgradeCLIViaGithub, fsSet, hget, hct, hra, hwr, hch, hcl,
      hex, hexe]
  | false =>
  cases hev : w.evalSymlinksFails with
  | true =>
    simp [upgradeCLIViaGithub, fsSet, hget, hct, hra, hwr, hch, hcl,
      hex, hev, hexe]
  | false =>
  cases hr1 : w.rename1Fails with
  | true =>
    simp [upgradeCLIViaGithub, fsSet, hget, hct, hra, hwr, hch, hcl,
      hex, hev, hr1, hexe]
  | false =>
    rcases hfail with h | h | h | h | h | h <;> simp_all

/-- Witness for `early_failure_preserves_binary` at a concrete world
whose download (HTTP GET) fails. -/
theorem early_failure_preserves_binary_witness :
    (upgradeCLIViaGithub
      ⟨true, "/tmp/bopmatic-1", false, [], false, false, false, false,
        false, false, "/usr/local/bin/bopmatic", false, false, false,
        false⟩ ghFs0).outcome = Outcome.exit1 ∧
    (upgradeCLIViaGithub
      ⟨true, "/tmp/bopmatic-1", false, [], false, false, false, false,
        false, false, "/usr/local/bin/bopmatic", false, false, false,
        false⟩ ghFs0).fs "/usr/local/bin/bopmatic" =
      ghFs0 "/usr/local/bin/bopmatic" :=
  early_failure_preserves_binary
    ⟨true, "/tmp/bopmatic-1", false, [], false, false, false, false,
      false, false, "/usr/local/bin/bopmatic", false, false, false,
      false⟩ ghFs0 (Or.inl rfl) (by decide)

/-! ## `upgradeCLI` (src/auth.go lines 216-250) -/

/-- The development-build sentinel (src/auth.go line 443). -/
def DevVersionText : String := "v0.devbuild"

/-- `isBrewVersion` (src/auth.go lines 451-457): the embedded version
string ends in the brew suffix character `b`. -/
def isBrewVersion (versionText : String) : Bool :=
  versionText.back = 'b'

/-- Oracle for one run of `upgradeCLI`: the embedded version string, the
result of `getLatestVersion` (a network fetch), whether the user answers
the prompt with something other than `Y`, whether the brew upgrade
commands fail, and the oracle for the GitHub upgrade path. -/
structure CLIWorld where
  versionText : String
  latestVer : Except String String
  userDeclines : Bool
  brewFails : Bool
  gh : GithubWorld

/-- An observable effect of `upgradeCLI`: each network access and each
printed message is recorded. -/
inductive CLIEffect where
| skipDevNotice : CLIEffect
| fetchLatestVersion : CLIEffect
| latestVersionErr : CLIEffect
| alreadyLatest : CLIEffect
| promptUser : CLIEffect
| brewUpgrade : CLIEffect
| githubUpgrade (m : GhMsg) : CLIEffect
deriving DecidableEq, Repr

/-- `upgradeCLI` (src/auth.go lines 216-250): on the development sentinel
version, print the skip notice and return before anything else; otherwise
fetch the latest version over the network (exit 1 on failure), return if
already latest, prompt the user and return if declined, then run the
brew or GitHub upgrade path. -/
def upgradeCLI (w : CLIWorld) (fs : Fs) : List CLIEffect × Fs × Outcome :=
  if w.versionText = DevVersionText then
    ([CLIEffect.skipDevNotice], fs, Outcome.ok)
  else
    match w.latestVer with
    | Except.error _ =>
        ([CLIEffect.fetchLatestVersion, CLIEffect.latestVersionErr], fs,
          Outcome.exit1)
    | Except.ok latestVer =>
        if latestVer = w.versionText then
          ([CLIEffect.fetchLatestVersion, CLIEffect.alreadyLatest], fs,
            Outcome.ok)
        else if w.userDeclines then
          ([CLIEffect.fetchLatestVersion, CLIEffect.promptUser], fs,
            Outcome.ok)
        else if isBrewVersion w.versionText then
          ([CLIEffect.fetchLatestVersion, CLIEffect.promptUser,
            CLIEffect.brewUpgrade], fs,
            if w.brewFails then Outcome.exit1 else Outcome.ok)
        else
          let r := upgradeCLIViaGithub w.gh fs
          ([CLIEffect.fetchLatestVersion, CLIEffect.promptUser] ++
            r.trace.map CLIEffect.githubUpgrade, r.fs, r.outcome)

/-- C9: when the embedded version string is the development sentinel
`v0.devbuild`, `upgradeCLI` prints only the skip notice and returns
normally: no network fetch, no download, and the filesystem is returned
unchanged, whatever the rest of the world looks like. -/
theorem dev_version_skips_upgrade (w : CLIWorld) (fs : Fs)
    (h : w.versionText = DevVersionText) :
    upgradeCLI w fs = ([CLIEffect.skipDevNotice], fs, Outcome.ok) := by
  simp [upgradeCLI, h]

/-- Witness for `dev_version_skips_upgrade` at a concrete world whose
version string is the sentinel. -/
theorem dev_version_skips_upgrade_witness :
    upgradeCLI
      ⟨"v0.devbuild", Except.ok "v1.2.3", false, false,
        ⟨false, "/tmp/bopmatic-1", false, [], false, false, false,
          false, false, false, "/usr/local/bin/bopmatic", false, false,
          false, false⟩⟩ ghFs0 =
      ([CLIEffect.skipDevNotice], ghFs0, Outcome.ok) :=
  dev_version_skips_upgrade
    ⟨"v0.devbuild", Except.ok "v1.2.3", false, false,
      ⟨false, "/tmp/bopmatic-1", false, [], false, false, false, false,
        false, false, "/usr/local/bin/bopmatic", false, false, false,
        false⟩⟩ ghFs0 rfl

/-! ## `upgradeBuildContainer` (src/auth.go lines 252-288) -/

/-- A message `upgradeBuildContainer` prints (pull output embedded). -/
inductive BCMsg where
| errMsg (e : String) : BCMsg
| upToDate : BCMsg
| promptUpdate : BCMsg
| promptDownload : BCMsg
| pullMsg (m : PullMsg) : BCMsg
| nextSteps : BCMsg
deriving DecidableEq, Repr

/-- Oracle for one run of `upgradeBuildContainer`: the result of
`util.HasBopmaticBuildImage`, the result of
`util.DoesLocalImageNeedUpdate`, whether the user answers the prompt
with something other than `Y`, and the pull stream oracle. -/
structure BCWorld where
  hasImage : Except String Bool
  needsUpdate : Except String Bool
  userDeclines : Bool
  pull : PullStream

/-- Shared tail of `upgradeBuildContainer` after the prompt: if the user
declines nothing happens; otherwise `pullBopmaticImage` runs, and when it
succeeds and the image was absent before, the next-steps hint prints. -/
def buildContainerPromptTail (msgs : List BCMsg) (haveImg : Bool)
    (w : BCWorld) : List BCMsg × Outcome :=
  if w.userDeclines then (msgs, Outcome.ok)
  else
    let pr := pullBopmaticImage w.pull
    let msgs2 := msgs ++ pr.1.map BCMsg.pullMsg
    match pr.2 with
    | Outcome.exit1 => (msgs2, Outcome.exit1)
    | Outcome.ok =>
        if haveImg then (msgs2, Outcome.ok)
        else (msgs2 ++ [BCMsg.nextSteps], Outcome.ok)

/-- `upgradeBuildContainer` (src/auth.go lines 252-288): check image
presence (exit 1 on error); when present, check staleness (exit 1 on
error), report up to date and return when not stale, else prompt for the
update; when absent, prompt for the download; then the shared tail. -/
def upgradeBuildContainer (w : BCWorld) : List BCMsg × Outcome :=
  match w.hasImage with
  | Except.error e => ([BCMsg.errMsg e], Outcome.exit1)
  | Except.ok haveImg =>
    if haveImg then
      match w.needsUpdate with
      | Except.error e => ([BCMsg.errMsg e], Outcome.exit1)
      | Except.ok needUpgrade =>
          if needUpgrade = false then ([BCMsg.upToDate], Outcome.ok)
          else buildContainerPromptTail [BCMsg.promptUpdate] true w
    else buildContainerPromptTail [BCMsg.promptDownload] false w

/-- C7: when the image is present locally but the staleness comparison
fails (offline, registry error), `upgradeBuildContainer` prints that
error and exits 1: it neither reports "up to date" nor prompts nor
pulls, for every user answer and every pull stream. -/
theorem staleness_check_error_fails_upgrade (e : String) (decl : Bool)
    (ps : PullStream) :
    upgradeBuildContainer
      ⟨Except.ok true, Except.error e, decl, ps⟩ =
      ([BCMsg.errMsg e], Outcome.exit1) := by
  rfl

/-! ## Subcommand dispatch (src/unnamed/part_000 lines 107-139) -/

/-- The registered subcommand handlers, one constructor per handler
function installed in `subCommandTab`. -/
inductive SubCmd where
| projMain : SubCmd
| pkgMain : SubCmd
| deployMain : SubCmd
| helpMain : SubCmd
| configMain : SubCmd
| versionMain : SubCmd
| upgradeMain : SubCmd
| logsMain : SubCmd
deriving DecidableEq, Repr

/-- `subCommandTab` (src/unnamed/part_000 lines 31-40). -/
def subCommandTab : List (String × SubCmd) :=
  [("project", SubCmd.projMain), ("package", SubCmd.pkgMain),
   ("deploy", SubCmd.deployMain), ("help", SubCmd.helpMain),
   ("config", SubCmd.configMain), ("version", SubCmd.versionMain),
   ("upgrade", SubCmd.upgradeMain), ("logs", SubCmd.logsMain)]

/-- Go map lookup `subCommandTab[subCommandName]`. -/
def lookupSubCommand (name : String) : Option SubCmd :=
  (subCommandTab.find? (fun p => p.1 = name)).map (fun p => p.2)

/-- The dispatch logic of `main` (src/unnamed/part_000 lines 107-139)
over the arguments after the program name (`os.Args[1:]`): default to
`help` with exit status 1 when no argument is given; an unknown name
also dispatches to `helpMain` with exit status 1; a registered name
dispatches to its handler, keeping exit status 0.  The returned status
is the one `main` passes to `os.Exit` after the handler returns. -/
def mainDispatch (argv : List String) : SubCmd × Nat :=
  let chosen : String × Nat :=
    match argv with
    | [] => ("help", 1)
    | a :: _ => (a, 0)
  match lookupSubCommand chosen.1 with
  | some cmd => (cmd, chosen.2)
  | none => (SubCmd.helpMain, 1)

/-- C10: with no argument the dispatcher runs `helpMain` and exits 1;
with an unregistered first argument it runs `helpMain` and exits 1; with
a registered first argument it runs that handler and the dispatch-level
exit status is 0. -/
theorem dispatch_unknown_gets_help_exit1 :
    mainDispatch [] = (SubCmd.helpMain, 1) ∧
    (∀ (a : String) (rest : List String), lookupSubCommand a = none →
      mainDispatch (a :: rest) = (SubCmd.helpMain, 1)) ∧
    (∀ (a : String) (rest : List String) (cmd : SubCmd),
      lookupSubCommand a = some cmd →
      mainDispatch (a :: rest) = (cmd, 0)) := by
  refine ⟨rfl, ?_, ?_⟩
  · intro a rest h
    simp [mainDispatch, h]
  · intro a rest cmd h
    simp [mainDispatch, h]

/-- Witness for `dispatch_unknown_gets_help_exit1`: the unregistered
name `bogus` yields help with exit status 1, and the registered name
`deploy` yields its handler with exit status 0. -/
theorem dispatch_unknown_gets_help_exit1_witness :
    mainDispatch ["bogus"] = (SubCmd.helpMain, 1) ∧
    mainDispatch ["deploy", "--help"] = (SubCmd.deployMain, 0) :=
  ⟨(dispatch_unknown_gets_help_exit1).2.1 "bogus" [] (by decide),
   (dispatch_unknown_gets_help_exit1).2.2 "deploy" ["--help"]
     SubCmd.deployMain (by decide)⟩

end Bopmatic
